import Mathlib

/-!
Verification of the loan eligibility scoring engine of the
loan-eligibilty-checker repository (engine: `src/loan_model.py`,
display layer: `src/app.py`).

Modelling choices:
* The Python engine computes with IEEE floats; the design document describes
  the arithmetic over the reals.  This development models all arithmetic
  exactly over `ℚ` (the idealized real-number semantics).  All operations the
  engine performs (field operations and integer powers) stay inside `ℚ`.
* The finding strings the engine builds with f-strings are abstracted to a
  `Finding` inductive type carrying the numeric payload interpolated into the
  string; the identity, multiplicity and order of findings are preserved
  exactly.
* `loan_term` is an integer everywhere in the application (one of 15/20/30,
  selected from a fixed list), so the term argument of the amortization
  formula is modelled as `ℤ`.
* The input dictionary, whose keys may be missing (`_validate_input` checks
  presence of the eight required fields), is modelled as a structure of
  `Option`-valued fields; `Option.getD 0` reads a field, which agrees with the
  Python dictionary access on every record that passes validation.
-/

namespace LoanModel

/-- Threshold fixed in `LoanEligibilityModel.__init__` (`min_credit_score`). -/
def min_credit_score : ℚ := 620

/-- Threshold fixed in `LoanEligibilityModel.__init__` (`max_debt_to_income`). -/
def max_debt_to_income : ℚ := 43

/-- Threshold fixed in `LoanEligibilityModel.__init__` (`min_down_payment_ratio`). -/
def min_down_payment_ratio : ℚ := 0.20

/-- Threshold fixed in `LoanEligibilityModel.__init__` (`min_employment_years`). -/
def min_employment_years : ℚ := 2

/-- Threshold fixed in `LoanEligibilityModel.__init__` (`min_income_to_loan_ratio`). -/
def min_income_to_loan_ratio : ℚ := 0.28

/-- Interest rate fixed in `LoanEligibilityModel.__init__` (`annual_rate`). -/
def annual_rate : ℚ := 0.06

/-- Fixed criterion weight from the `weights` dict in `predict`. -/
def weight_credit_score : ℚ := 0.25

/-- Fixed criterion weight from the `weights` dict in `predict`. -/
def weight_debt_to_income : ℚ := 0.25

/-- Fixed criterion weight from the `weights` dict in `predict`. -/
def weight_down_payment : ℚ := 0.20

/-- Fixed criterion weight from the `weights` dict in `predict`. -/
def weight_employment_years : ℚ := 0.15

/-- Fixed criterion weight from the `weights` dict in `predict`. -/
def weight_income_to_loan : ℚ := 0.15

/-- Abstraction of the human-readable finding strings produced by `predict`.
Each constructor stands for one f-string template of the Python source and
carries the numeric value interpolated into it. -/
inductive Finding where
  | invalidInput
  | creditScore (score : ℚ)
  | debtToIncome (dti : ℚ)
  | downPayment (ratio : ℚ)
  | employment (years : ℚ)
  | incomeToLoan (ratio : ℚ)
  | success
deriving DecidableEq, Repr

/-- The applicant-attributes dictionary handed to `predict`.  Fields are
`Option`-valued because `_validate_input` checks their presence. -/
structure InputData where
  age : Option ℚ
  income : Option ℚ
  employment_years : Option ℚ
  credit_score : Option ℚ
  loan_amount : Option ℚ
  debt_to_income : Option ℚ
  down_payment : Option ℚ
  loan_term : Option ℤ
deriving DecidableEq, Repr

/-- `_calculate_credit_score_weight` (loan_model.py ll. 95-102). -/
def calculate_credit_score_weight (credit_score : ℚ) : ℚ :=
  if credit_score ≥ min_credit_score + 100 then 1
  else if credit_score ≥ min_credit_score then
    0.5 + (credit_score - min_credit_score) / 200
  else max 0 (0.5 + (credit_score - min_credit_score) / 200)

/-- `_calculate_dti_weight` (loan_model.py ll. 104-111). -/
def calculate_dti_weight (dti : ℚ) : ℚ :=
  if dti ≤ max_debt_to_income - 10 then 1
  else if dti ≤ max_debt_to_income then
    0.5 + (max_debt_to_income - dti) / 20
  else max 0 (0.5 + (max_debt_to_income - dti) / 20)

/-- `_calculate_down_payment_weight` (loan_model.py ll. 113-120). -/
def calculate_down_payment_weight (down_payment_ratio : ℚ) : ℚ :=
  if down_payment_ratio ≥ min_down_payment_ratio + 0.1 then 1
  else if down_payment_ratio ≥ min_down_payment_ratio then
    0.5 + (down_payment_ratio - min_down_payment_ratio) / 0.2
  else max 0 (0.5 + (down_payment_ratio - min_down_payment_ratio) / 0.2)

/-- `_calculate_employment_weight` (loan_model.py ll. 122-129). -/
def calculate_employment_weight (employment_years : ℚ) : ℚ :=
  if employment_years ≥ min_employment_years + 3 then 1
  else if employment_years ≥ min_employment_years then
    0.5 + (employment_years - min_employment_years) / 6
  else max 0 (0.5 + (employment_years - min_employment_years) / 6)

/-- `_calculate_income_weight` (loan_model.py ll. 131-138). -/
def calculate_income_weight (income_to_loan_ratio : ℚ) : ℚ :=
  if income_to_loan_ratio ≤ min_income_to_loan_ratio - 0.05 then 1
  else if income_to_loan_ratio ≤ min_income_to_loan_ratio then
    0.5 + (min_income_to_loan_ratio - income_to_loan_ratio) / 0.1
  else max 0 (0.5 + (min_income_to_loan_ratio - income_to_loan_ratio) / 0.1)

/-- `_calculate_monthly_payment` (loan_model.py ll. 140-156).  The power
`(1 + monthly_rate) ** num_payments` has the integer exponent
`num_payments = years * 12` and is modelled by `zpow` on `ℚ`. -/
def calculate_monthly_payment (principal : ℚ) (years : ℤ) (rate : ℚ) : ℚ :=
  if principal ≤ 0 ∨ years ≤ 0 then 0
  else
    let monthly_rate := rate / 12
    let num_payments := years * 12
    if monthly_rate = 0 then principal / (num_payments : ℚ)
    else principal * (monthly_rate * (1 + monthly_rate) ^ num_payments) /
      ((1 + monthly_rate) ^ num_payments - 1)

/-- Presence check of the eight required fields (`_validate_input`, first
check, loan_model.py ll. 78-83). -/
def hasAllFields (d : InputData) : Bool :=
  d.age.isSome && d.income.isSome && d.employment_years.isSome &&
    d.credit_score.isSome && d.loan_amount.isSome && d.debt_to_income.isSome &&
    d.down_payment.isSome && d.loan_term.isSome

/-- `_validate_input` (loan_model.py ll. 76-93). -/
def validate_input (d : InputData) : Bool :=
  if hasAllFields d = false then false
  else if d.income.getD 0 ≤ 0 ∨ d.loan_amount.getD 0 ≤ 0 then false
  else if d.down_payment.getD 0 > d.loan_amount.getD 0 then false
  else true

/-- Down payment ratio computed inside `predict` (loan_model.py l. 42). -/
def down_payment_ratio (d : InputData) : ℚ :=
  d.down_payment.getD 0 / d.loan_amount.getD 0

/-- The monthly payment computed inside `predict` (loan_model.py ll. 56-59):
principal `loan_amount - down_payment`, term `loan_term`, default 6% rate. -/
def predict_monthly_payment (d : InputData) : ℚ :=
  calculate_monthly_payment (d.loan_amount.getD 0 - d.down_payment.getD 0)
    (d.loan_term.getD 0) annual_rate

/-- The income-to-loan ratio computed inside `predict` (loan_model.py
ll. 55-60): `monthly_payment / monthly_income` with
`monthly_income = income / 12`. -/
def income_to_loan_ratio (d : InputData) : ℚ :=
  predict_monthly_payment d / (d.income.getD 0 / 12)

/-- The accumulated `score` of `predict` (loan_model.py ll. 19-62): the five
criterion weights times their fixed weights, added in evaluation order. -/
def predict_score (d : InputData) : ℚ :=
  calculate_credit_score_weight (d.credit_score.getD 0) * weight_credit_score
    + calculate_dti_weight (d.debt_to_income.getD 0) * weight_debt_to_income
    + calculate_down_payment_weight (down_payment_ratio d) * weight_down_payment
    + calculate_employment_weight (d.employment_years.getD 0) * weight_employment_years
    + calculate_income_weight (income_to_loan_ratio d) * weight_income_to_loan

/-- The `reasons` list of `predict` before the success message is considered
(loan_model.py ll. 29-64): one finding per criterion whose weight is `< 1`,
appended in the fixed evaluation order. -/
def predict_findings (d : InputData) : List Finding :=
  (if calculate_credit_score_weight (d.credit_score.getD 0) < 1 then
    [Finding.creditScore (d.credit_score.getD 0)] else [])
  ++ (if calculate_dti_weight (d.debt_to_income.getD 0) < 1 then
    [Finding.debtToIncome (d.debt_to_income.getD 0)] else [])
  ++ (if calculate_down_payment_weight (down_payment_ratio d) < 1 then
    [Finding.downPayment (down_payment_ratio d)] else [])
  ++ (if calculate_employment_weight (d.employment_years.getD 0) < 1 then
    [Finding.employment (d.employment_years.getD 0)] else [])
  ++ (if calculate_income_weight (income_to_loan_ratio d) < 1 then
    [Finding.incomeToLoan (income_to_loan_ratio d)] else [])

/-- `predict` (loan_model.py ll. 13-74).  Returns the triple
`(eligibility, probability, reasons)`. -/
def predict (d : InputData) : Bool × ℚ × List Finding :=
  if validate_input d = false then (false, 0, [Finding.invalidInput])
  else
    let score := predict_score d
    let reasons := predict_findings d
    let eligibility : Bool := decide (score ≥ 0.7)
    let probability := score * 100
    (eligibility, probability,
      if eligibility = true ∧ reasons = [] then reasons ++ [Finding.success]
      else reasons)

/-- Monthly payment as the display layer computes it independently
(`src/app.py` ll. 183-187): `model._calculate_monthly_payment(loan_amount -
down_payment, loan_term)`, with the model's default 6% annual rate. -/
def app_display_monthly_payment (loan_amount down_payment : ℚ)
    (loan_term : ℤ) : ℚ :=
  calculate_monthly_payment (loan_amount - down_payment) loan_term annual_rate

end LoanModel

namespace LoanModel

/-! ### Helper lemmas -/

lemma credit_weight_bounds (c : ℚ) :
    0 ≤ calculate_credit_score_weight c ∧ calculate_credit_score_weight c ≤ 1 := by
  unfold calculate_credit_score_weight min_credit_score
  split_ifs with h1 h2
  · norm_num
  · push_neg at h1
    constructor <;> linarith
  · push_neg at h1 h2
    refine ⟨le_max_left _ _, max_le (by norm_num) (by linarith)⟩

lemma dti_weight_bounds (x : ℚ) :
    0 ≤ calculate_dti_weight x ∧ calculate_dti_weight x ≤ 1 := by
  unfold calculate_dti_weight max_debt_to_income
  split_ifs with h1 h2
  · norm_num
  · push_neg at h1
    constructor <;> linarith
  · push_neg at h1 h2
    refine ⟨le_max_left _ _, max_le (by norm_num) (by linarith)⟩

lemma down_payment_weight_bounds (x : ℚ) :
    0 ≤ calculate_down_payment_weight x ∧ calculate_down_payment_weight x ≤ 1 := by
  unfold calculate_down_payment_weight min_down_payment_ratio
  split_ifs with h1 h2
  · norm_num
  · push_neg at h1
    norm_num at h1 h2 ⊢
    constructor <;> linarith
  · push_neg at h1 h2
    norm_num at h1 h2
    refine ⟨le_max_left _ _, max_le (by norm_num) (by norm_num; linarith)⟩

lemma employment_weight_bounds (x : ℚ) :
    0 ≤ calculate_employment_weight x ∧ calculate_employment_weight x ≤ 1 := by
  unfold calculate_employment_weight min_employment_years
  split_ifs with h1 h2
  · norm_num
  · push_neg at h1
    constructor <;> linarith
  · push_neg at h1 h2
    refine ⟨le_max_left _ _, max_le (by norm_num) (by linarith)⟩

lemma income_weight_bounds (x : ℚ) :
    0 ≤ calculate_income_weight x ∧ calculate_income_weight x ≤ 1 := by
  unfold calculate_income_weight min_income_to_loan_ratio
  split_ifs with h1 h2
  · norm_num
  · push_neg at h1
    norm_num at h1 h2 ⊢
    constructor <;> linarith
  · push_neg at h1 h2
    norm_num at h1 h2
    refine ⟨le_max_left _ _, max_le (by norm_num) (by norm_num; linarith)⟩

lemma predict_of_valid (d : InputData) (h : validate_input d = true) :
    predict d = (decide (predict_score d ≥ 0.7), predict_score d * 100,
      if (decide (predict_score d ≥ 0.7)) = true ∧ predict_findings d = [] then
        predict_findings d ++ [Finding.success]
      else predict_findings d) := by
  simp only [predict, h]
  norm_num

end LoanModel

namespace LoanModel

/-! ### Claim C3 -/

/-- C3: each of the five criterion weight functions (credit score,
debt-to-income, down payment ratio, employment years, income-to-loan ratio)
returns a value in the closed interval [0, 1] for every rational input; the
result is never negative and never above 1. -/
theorem weight_functions_clamped :
    (∀ x : ℚ, 0 ≤ calculate_credit_score_weight x ∧
      calculate_credit_score_weight x ≤ 1) ∧
    (∀ x : ℚ, 0 ≤ calculate_dti_weight x ∧ calculate_dti_weight x ≤ 1) ∧
    (∀ x : ℚ, 0 ≤ calculate_down_payment_weight x ∧
      calculate_down_payment_weight x ≤ 1) ∧
    (∀ x : ℚ, 0 ≤ calculate_employment_weight x ∧
      calculate_employment_weight x ≤ 1) ∧
    (∀ x : ℚ, 0 ≤ calculate_income_weight x ∧ calculate_income_weight x ≤ 1) :=
  ⟨credit_weight_bounds, dti_weight_bounds, down_payment_weight_bounds,
    employment_weight_bounds, income_weight_bounds⟩

/-! ### Claim C1 -/

/-- C1: for every record that passes the engine's validation, the returned
confidence percentage equals 100 times the weighted sum of the five criterion
weights with fixed weights 0.25, 0.25, 0.20, 0.15, 0.15, and the eligible
boolean is true exactly when the confidence percentage is at least 70. -/
theorem predict_confidence_formula_and_threshold (d : InputData)
    (h : validate_input d = true) :
    (predict d).2.1 = 100 *
      (calculate_credit_score_weight (d.credit_score.getD 0) * 0.25
        + calculate_dti_weight (d.debt_to_income.getD 0) * 0.25
        + calculate_down_payment_weight (down_payment_ratio d) * 0.20
        + calculate_employment_weight (d.employment_years.getD 0) * 0.15
        + calculate_income_weight (income_to_loan_ratio d) * 0.15) ∧
    ((predict d).1 = true ↔ 70 ≤ (predict d).2.1) := by
  rw [predict_of_valid d h]
  constructor
  · show predict_score d * 100 = _
    unfold predict_score weight_credit_score weight_debt_to_income
      weight_down_payment weight_employment_years weight_income_to_loan
    ring
  · show decide (predict_score d ≥ 0.7) = true ↔ 70 ≤ predict_score d * 100
    rw [decide_eq_true_eq]
    constructor <;> intro h70 <;> [linarith; linarith]

/-- Concrete valid input used to witness theorems about valid records. -/
def sampleValid : InputData :=
  { age := some 30, income := some 1200, employment_years := some 10,
    credit_score := some 800, loan_amount := some 1000,
    debt_to_income := some 0, down_payment := some 500, loan_term := some 1 }

theorem predict_confidence_formula_and_threshold_witness :
    validate_input sampleValid = true ∧
    ((predict sampleValid).2.1 = 100 *
      (calculate_credit_score_weight (sampleValid.credit_score.getD 0) * 0.25
        + calculate_dti_weight (sampleValid.debt_to_income.getD 0) * 0.25
        + calculate_down_payment_weight (down_payment_ratio sampleValid) * 0.20
        + calculate_employment_weight (sampleValid.employment_years.getD 0) * 0.15
        + calculate_income_weight (income_to_loan_ratio sampleValid) * 0.15) ∧
    ((predict sampleValid).1 = true ↔ 70 ≤ (predict sampleValid).2.1)) :=
  ⟨by norm_num [validate_input, hasAllFields, sampleValid],
    predict_confidence_formula_and_threshold sampleValid
      (by norm_num [validate_input, hasAllFields, sampleValid])⟩

end LoanModel

namespace LoanModel

/-! ### Claim C4 -/

/-- C4: if the input record is missing any of the eight required fields, or
income ≤ 0, or loanAmount ≤ 0, or downPayment > loanAmount, then `predict`
returns eligible = false, confidence 0 and exactly one invalid-input finding,
regardless of the other field values. -/
theorem invalid_input_result (d : InputData)
    (h : d.age = none ∨ d.income = none ∨ d.employment_years = none ∨
      d.credit_score = none ∨ d.loan_amount = none ∨ d.debt_to_income = none ∨
      d.down_payment = none ∨ d.loan_term = none ∨
      d.income.getD 0 ≤ 0 ∨ d.loan_amount.getD 0 ≤ 0 ∨
      d.down_payment.getD 0 > d.loan_amount.getD 0) :
    predict d = (false, 0, [Finding.invalidInput]) := by
  have hv : validate_input d = false := by
    unfold validate_input
    split_ifs with h1 h2 h3
    · rfl
    · rfl
    · rfl
    · exfalso
      rcases h with h|h|h|h|h|h|h|h|h|h|h
      · simp [hasAllFields, h] at h1
      · simp [hasAllFields, h] at h1
      · simp [hasAllFields, h] at h1
      · simp [hasAllFields, h] at h1
      · simp [hasAllFields, h] at h1
      · simp [hasAllFields, h] at h1
      · simp [hasAllFields, h] at h1
      · simp [hasAllFields, h] at h1
      · exact h2 (Or.inl h)
      · exact h2 (Or.inr h)
      · exact h3 h
  simp [predict, hv]

/-- Concrete record with a non-positive income, used to witness C4. -/
def sampleNegativeIncome : InputData :=
  { age := some 30, income := some (-5), employment_years := some 1,
    credit_score := some 700, loan_amount := some 1000,
    debt_to_income := some 10, down_payment := some 100, loan_term := some 30 }

theorem invalid_input_result_witness :
    predict sampleNegativeIncome = (false, 0, [Finding.invalidInput]) := by
  apply invalid_input_result
  iterate 8 right
  left
  norm_num [sampleNegativeIncome]

/-! ### Claim C5 -/

/-- C5 counterexample: creditScore 800 lies in [620, 820) but the credit score
weight is 1, not 0.5 + (800 - 620)/200 = 1.4. -/
theorem credit_weight_linear_band_counterexample :
    (620 ≤ (800 : ℚ) ∧ (800 : ℚ) < 820) ∧
    calculate_credit_score_weight 800 ≠ 0.5 + ((800 : ℚ) - 620) / 200 := by
  norm_num [calculate_credit_score_weight, min_credit_score]

/-- C5 amended: the linear partial-credit formula
0.5 + (creditScore - 620)/200 holds exactly on the band [620, 720]; from
creditScore 720 upward the weight is the full 1.0 instead. -/
theorem credit_weight_linear_band_amended (c : ℚ) :
    (620 ≤ c → c ≤ 720 → calculate_credit_score_weight c = 0.5 + (c - 620) / 200) ∧
    (720 ≤ c → calculate_credit_score_weight c = 1) := by
  constructor
  · intro h1 h2
    rcases eq_or_lt_of_le h2 with hc | hc
    · subst hc
      norm_num [calculate_credit_score_weight, min_credit_score]
    · unfold calculate_credit_score_weight min_credit_score
      rw [if_neg (by push_neg; linarith), if_pos (by linarith)]
  · intro h1
    unfold calculate_credit_score_weight min_credit_score
    rw [if_pos (by linarith)]

theorem credit_weight_linear_band_amended_witness :
    calculate_credit_score_weight 650 = 0.5 + ((650 : ℚ) - 620) / 200 ∧
    calculate_credit_score_weight 800 = 1 :=
  ⟨(credit_weight_linear_band_amended 650).1 (by norm_num) (by norm_num),
    (credit_weight_linear_band_amended 800).2 (by norm_num)⟩

/-! ### Claim C6 -/

/-- C6: the monthly payment is 0 whenever principal ≤ 0 or termYears ≤ 0, and
for positive principal and term with a zero annual rate it is exactly
principal / (termYears * 12). -/
theorem monthly_payment_edge_cases (p : ℚ) (y : ℤ) (r : ℚ) :
    (p ≤ 0 ∨ y ≤ 0 → calculate_monthly_payment p y r = 0) ∧
    (0 < p → 0 < y → calculate_monthly_payment p y 0 = p / ((y : ℚ) * 12)) := by
  constructor
  · intro h
    unfold calculate_monthly_payment
    rw [if_pos h]
  · intro hp hy
    unfold calculate_monthly_payment
    rw [if_neg (by push_neg; exact ⟨by linarith, by linarith⟩)]
    norm_num

theorem monthly_payment_edge_cases_witness :
    calculate_monthly_payment 100 0 (6 / 100) = 0 ∧
    calculate_monthly_payment 100 2 0 = 100 / ((2 : ℚ) * 12) :=
  ⟨(monthly_payment_edge_cases 100 0 (6 / 100)).1 (Or.inr (by norm_num)),
    (monthly_payment_edge_cases 100 2 0).2 (by norm_num) (by norm_num)⟩

end LoanModel

namespace LoanModel

/-! ### Claim C7 -/

/-- Sum of the first `n` negative powers of `x`.  For `x = 1 + monthlyRate`
this is the standard annuity factor: the amortization payment equals
`principal / gsum x n`. -/
def gsum (x : ℚ) (n : ℕ) : ℚ := ∑ j ∈ Finset.range n, (1 / x) ^ (j + 1)

lemma gsum_mul (x : ℚ) (hx : x ≠ 0) (n : ℕ) :
    gsum x n * ((x - 1) * x ^ n) = x ^ n - 1 := by
  induction n with
  | zero => simp [gsum]
  | succ n ih =>
    have h1 : (1 / x) ^ (n + 1) * x ^ (n + 1) = 1 := by
      rw [one_div, inv_pow, inv_mul_cancel₀ (pow_ne_zero _ hx)]
    simp only [gsum] at ih ⊢
    rw [Finset.sum_range_succ]
    linear_combination x * ih + (x - 1) * h1

lemma gsum_pos (x : ℚ) (hx : 0 < x) (n : ℕ) (hn : n ≠ 0) : 0 < gsum x n :=
  Finset.sum_pos (fun _ _ => pow_pos (by positivity) _)
    (Finset.nonempty_range_iff.mpr hn)

lemma gsum_lt_of_base_lt (x y : ℚ) (n : ℕ) (hn : n ≠ 0) (hx : 0 < x)
    (hxy : x < y) : gsum y n < gsum x n := by
  have hy : 0 < y := lt_trans hx hxy
  apply Finset.sum_lt_sum_of_nonempty (Finset.nonempty_range_iff.mpr hn)
  intro j _
  exact pow_lt_pow_left₀ (one_div_lt_one_div_of_lt hx hxy) (by positivity)
    (Nat.succ_ne_zero j)

lemma gsum_lt_of_len_lt (x : ℚ) (hx : 0 < x) (m n : ℕ) (hmn : m < n) :
    gsum x m < gsum x n := by
  apply Finset.sum_lt_sum_of_subset (Finset.range_subset.mpr hmn.le)
    (Finset.mem_range.mpr hmn) Finset.not_mem_range_self
    (pow_pos (by positivity) _)
  intro j _ _
  exact le_of_lt (pow_pos (by positivity) _)

lemma payment_eq_div_gsum (p : ℚ) (y : ℤ) (r : ℚ) (hp : 0 < p) (hy : 0 < y)
    (hr : 0 < r) :
    calculate_monthly_payment p y r = p / gsum (1 + r / 12) (y * 12).toNat := by
  have hx0 : (0 : ℚ) < 1 + r / 12 := by linarith [hr.le]
  unfold calculate_monthly_payment
  rw [if_neg (by push_neg; exact ⟨by linarith, by linarith⟩)]
  show (if r / 12 = 0 then p / ((y * 12 : ℤ) : ℚ)
      else p * (r / 12 * (1 + r / 12) ^ (y * 12)) /
        ((1 + r / 12) ^ (y * 12) - 1)) = _
  rw [if_neg (by positivity)]
  have hzp : (1 + r / 12 : ℚ) ^ (y * 12) = (1 + r / 12) ^ ((y * 12).toNat) := by
    conv_lhs => rw [← Int.toNat_of_nonneg (show (0 : ℤ) ≤ y * 12 by positivity)]
    rw [zpow_natCast]
  rw [hzp]
  rw [show r / 12 * (1 + r / 12) ^ ((y * 12).toNat) =
    ((1 + r / 12) - 1) * (1 + r / 12) ^ ((y * 12).toNat) by ring]
  rw [← gsum_mul (1 + r / 12) (ne_of_gt hx0) (y * 12).toNat]
  refine mul_div_mul_right p (gsum (1 + r / 12) (y * 12).toNat) ?_
  have h1 : (0 : ℚ) < (1 + r / 12) - 1 := by linarith
  positivity

/-- C7: for a positive annual rate the monthly payment is strictly increasing
in the principal, strictly increasing in the annual rate, and strictly
decreasing in the term in years. -/
theorem monthly_payment_monotone (p p' : ℚ) (y y' : ℤ) (r r' : ℚ) :
    (0 < p → p < p' → 0 < y → 0 < r →
      calculate_monthly_payment p y r < calculate_monthly_payment p' y r) ∧
    (0 < p → 0 < y → 0 < r → r < r' →
      calculate_monthly_payment p y r < calculate_monthly_payment p y r') ∧
    (0 < p → 0 < r → 0 < y → y < y' →
      calculate_monthly_payment p y' r < calculate_monthly_payment p y r) := by
  refine ⟨?_, ?_, ?_⟩
  · intro hp hpp hy hr
    rw [payment_eq_div_gsum p y r hp hy hr,
      payment_eq_div_gsum p' y r (lt_trans hp hpp) hy hr]
    exact (div_lt_div_iff_of_pos_right (gsum_pos _ (by linarith) _ (by omega))).mpr hpp
  · intro hp hy hr hrr
    rw [payment_eq_div_gsum p y r hp hy hr,
      payment_eq_div_gsum p y r' hp hy (lt_trans hr hrr)]
    exact div_lt_div_of_pos_left hp (gsum_pos _ (by linarith) _ (by omega))
      (gsum_lt_of_base_lt _ _ _ (by omega) (by linarith) (by linarith))
  · intro hp hr hy hyy
    rw [payment_eq_div_gsum p y r hp hy hr,
      payment_eq_div_gsum p y' r hp (lt_trans hy hyy) hr]
    exact div_lt_div_of_pos_left hp (gsum_pos _ (by linarith) _ (by omega))
      (gsum_lt_of_len_lt _ (by linarith) _ _ (by omega))

theorem monthly_payment_monotone_witness :
    calculate_monthly_payment 1000 1 (6 / 100) <
      calculate_monthly_payment 2000 1 (6 / 100) ∧
    calculate_monthly_payment 1000 1 (6 / 100) <
      calculate_monthly_payment 1000 1 (12 / 100) ∧
    calculate_monthly_payment 1000 2 (6 / 100) <
      calculate_monthly_payment 1000 1 (6 / 100) :=
  ⟨(monthly_payment_monotone 1000 2000 1 2 (6 / 100) (12 / 100)).1
      (by norm_num) (by norm_num) (by norm_num) (by norm_num),
    (monthly_payment_monotone 1000 2000 1 2 (6 / 100) (12 / 100)).2.1
      (by norm_num) (by norm_num) (by norm_num) (by norm_num),
    (monthly_payment_monotone 1000 2000 1 2 (6 / 100) (12 / 100)).2.2
      (by norm_num) (by norm_num) (by norm_num) (by norm_num)⟩

end LoanModel

namespace LoanModel

/-! ### Claim C2 -/

/-- Concrete record of the spec's Scenario C: worst credit score, worst DTI,
no down payment, no employment history, loan amount huge relative to income
(the income-to-loan weight clamps to 0), and all engine validation checks
pass. -/
def scenarioC_input : InputData :=
  { age := some 30, income := some 1200, employment_years := some 0,
    credit_score := some 300, loan_amount := some 1200000,
    debt_to_income := some 100, down_payment := some 0, loan_term := some 1 }

/-- C2 counterexample: on a Scenario C record that passes validation and whose
income-to-loan weight does clamp to 0, the confidence is 5/2, not 0: the
employment weight at 0 years is max(0, 0.5 - 2/6) = 1/6, not 0. -/
theorem scenarioC_confidence_not_zero :
    validate_input scenarioC_input = true ∧
    calculate_income_weight (income_to_loan_ratio scenarioC_input) = 0 ∧
    calculate_employment_weight
      (scenarioC_input.employment_years.getD 0) = 1 / 6 ∧
    (predict scenarioC_input).2.1 ≠ 0 := by
  refine ⟨by norm_num [validate_input, hasAllFields, scenarioC_input], ?_, ?_, ?_⟩
  · norm_num [calculate_income_weight, income_to_loan_ratio,
      predict_monthly_payment, calculate_monthly_payment, annual_rate,
      min_income_to_loan_ratio, scenarioC_input]
  · norm_num [calculate_employment_weight, min_employment_years, scenarioC_input]
  · norm_num [predict, predict_score, predict_findings, validate_input,
      hasAllFields, income_to_loan_ratio, predict_monthly_payment,
      down_payment_ratio, calculate_monthly_payment,
      calculate_credit_score_weight, calculate_dti_weight,
      calculate_down_payment_weight, calculate_employment_weight,
      calculate_income_weight, min_credit_score, max_debt_to_income,
      min_down_payment_ratio, min_employment_years, min_income_to_loan_ratio,
      annual_rate, weight_credit_score, weight_debt_to_income,
      weight_down_payment, weight_employment_years, weight_income_to_loan,
      scenarioC_input]

/-- C2 amended: for a validated record with creditScore 300, debtToIncome 100,
downPayment 0, employmentYears 0 and a loan so large relative to income that
the income-to-loan weight clamps to 0, the credit, DTI, down-payment and
income-to-loan weights are 0 but the employment weight is 1/6, so predict
returns eligible false, confidence 5/2 (not 0), and five findings in the fixed
evaluation order. -/
theorem scenarioC_amended (d : InputData)
    (hv : validate_input d = true)
    (hcs : d.credit_score = some 300)
    (hdti : d.debt_to_income = some 100)
    (hdp : d.down_payment = some 0)
    (hey : d.employment_years = some 0)
    (hil : calculate_income_weight (income_to_loan_ratio d) = 0) :
    (predict d).1 = false ∧ (predict d).2.1 = 5 / 2 ∧
    (predict d).2.2 = [Finding.creditScore 300, Finding.debtToIncome 100,
      Finding.downPayment 0, Finding.employment 0,
      Finding.incomeToLoan (income_to_loan_ratio d)] := by
  have hdpr : down_payment_ratio d = 0 := by
    rw [down_payment_ratio, hdp]
    simp
  have hcw : calculate_credit_score_weight (d.credit_score.getD 0) = 0 := by
    rw [hcs]
    norm_num [calculate_credit_score_weight, min_credit_score]
  have hdw : calculate_dti_weight (d.debt_to_income.getD 0) = 0 := by
    rw [hdti]
    norm_num [calculate_dti_weight, max_debt_to_income]
  have hpw : calculate_down_payment_weight (down_payment_ratio d) = 0 := by
    rw [hdpr]
    norm_num [calculate_down_payment_weight, min_down_payment_ratio]
  have hew : calculate_employment_weight (d.employment_years.getD 0) = 1 / 6 := by
    rw [hey]
    norm_num [calculate_employment_weight, min_employment_years]
  have hsc : predict_score d = 1 / 40 := by
    rw [predict_score, hcw, hdw, hpw, hew, hil]
    norm_num [weight_credit_score, weight_debt_to_income, weight_down_payment,
      weight_employment_years, weight_income_to_loan]
  have hfind : predict_findings d = [Finding.creditScore 300,
      Finding.debtToIncome 100, Finding.downPayment 0, Finding.employment 0,
      Finding.incomeToLoan (income_to_loan_ratio d)] := by
    rw [predict_findings, hcw, hdw, hpw, hew, hil, hdpr, hcs, hdti, hey]
    norm_num
  have hcond : ¬(decide (predict_score d ≥ 0.7) = true ∧
      predict_findings d = []) := by
    rintro ⟨-, h2⟩
    rw [hfind] at h2
    exact absurd h2 (by simp)
  rw [predict_of_valid d hv]
  refine ⟨?_, ?_, ?_⟩
  · show decide (predict_score d ≥ 0.7) = false
    rw [hsc]
    norm_num
  · show predict_score d * 100 = 5 / 2
    rw [hsc]
    norm_num
  · show (if decide (predict_score d ≥ 0.7) = true ∧ predict_findings d = []
        then predict_findings d ++ [Finding.success]
        else predict_findings d) = _
    rw [if_neg hcond, hfind]

theorem scenarioC_amended_witness :
    (predict scenarioC_input).1 = false ∧
    (predict scenarioC_input).2.1 = 5 / 2 ∧
    (predict scenarioC_input).2.2 = [Finding.creditScore 300,
      Finding.debtToIncome 100, Finding.downPayment 0, Finding.employment 0,
      Finding.incomeToLoan (income_to_loan_ratio scenarioC_input)] :=
  scenarioC_amended scenarioC_input
    (by norm_num [validate_input, hasAllFields, scenarioC_input])
    rfl rfl rfl rfl
    (by norm_num [calculate_income_weight, income_to_loan_ratio,
      predict_monthly_payment, calculate_monthly_payment, annual_rate,
      min_income_to_loan_ratio, scenarioC_input])

end LoanModel

namespace LoanModel

/-! ### Claim C9 -/

/-- C9: for every validated record, the monthly payment the display layer
computes independently (`app.py` ll. 183-187) is exactly the monthly payment
value used inside `predict` for the income-to-loan criterion, and the
income-to-loan ratio of `predict` is that value divided by monthly income. -/
theorem monthly_payment_no_drift (d : InputData)
    (_h : validate_input d = true) :
    app_display_monthly_payment (d.loan_amount.getD 0) (d.down_payment.getD 0)
      (d.loan_term.getD 0) = predict_monthly_payment d ∧
    income_to_loan_ratio d = predict_monthly_payment d / (d.income.getD 0 / 12) :=
  ⟨rfl, rfl⟩

theorem monthly_payment_no_drift_witness :
    app_display_monthly_payment (sampleValid.loan_amount.getD 0)
      (sampleValid.down_payment.getD 0) (sampleValid.loan_term.getD 0) =
      predict_monthly_payment sampleValid ∧
    income_to_loan_ratio sampleValid =
      predict_monthly_payment sampleValid / (sampleValid.income.getD 0 / 12) :=
  monthly_payment_no_drift sampleValid
    (by norm_num [validate_input, hasAllFields, sampleValid])

/-! ### Claim C10 -/

/-- C10: for every record that passes the engine's validation, the findings
list returned by `predict` is non-empty: a below-1 criterion contributes a
failure finding, and with no below-1 criterion the success message is
appended. -/
theorem findings_nonempty (d : InputData) (h : validate_input d = true) :
    (predict d).2.2 ≠ [] := by
  rw [predict_of_valid d h]
  by_cases hf : predict_findings d = []
  · have g1 : ¬ calculate_credit_score_weight (d.credit_score.getD 0) < 1 := by
      intro hlt
      have hfc := hf
      unfold predict_findings at hfc
      rw [if_pos hlt] at hfc
      simp at hfc
    have g2 : ¬ calculate_dti_weight (d.debt_to_income.getD 0) < 1 := by
      intro hlt
      have hfc := hf
      unfold predict_findings at hfc
      rw [if_pos hlt] at hfc
      simp at hfc
    have g3 : ¬ calculate_down_payment_weight (down_payment_ratio d) < 1 := by
      intro hlt
      have hfc := hf
      unfold predict_findings at hfc
      rw [if_pos hlt] at hfc
      simp at hfc
    have g4 : ¬ calculate_employment_weight (d.employment_years.getD 0) < 1 := by
      intro hlt
      have hfc := hf
      unfold predict_findings at hfc
      rw [if_pos hlt] at hfc
      simp at hfc
    have g5 : ¬ calculate_income_weight (income_to_loan_ratio d) < 1 := by
      intro hlt
      have hfc := hf
      unfold predict_findings at hfc
      rw [if_pos hlt] at hfc
      simp at hfc
    push_neg at g1 g2 g3 g4 g5
    have hsc : predict_score d ≥ 0.7 := by
      unfold predict_score weight_credit_score weight_debt_to_income
        weight_down_payment weight_employment_years weight_income_to_loan
      linarith
    rw [if_pos ⟨decide_eq_true hsc, hf⟩, hf]
    simp
  · rw [if_neg (fun hc => hf hc.2)]
    exact hf

theorem findings_nonempty_witness : (predict sampleValid).2.2 ≠ [] :=
  findings_nonempty sampleValid
    (by norm_num [validate_input, hasAllFields, sampleValid])

end LoanModel

namespace LoanModel

/-! ### Claim C8 -/

/-- C8: for every validated record, if some criterion weight is strictly below
1 the findings list is exactly the concatenation, in the fixed evaluation
order, of one finding per criterion whose weight is below 1; and if every
criterion weight is at least 1 (no criterion underscored) the applicant is
eligible and the findings list is exactly the single success message. -/
theorem findings_structure (d : InputData) (h : validate_input d = true) :
    ((calculate_credit_score_weight (d.credit_score.getD 0) < 1 ∨
      calculate_dti_weight (d.debt_to_income.getD 0) < 1 ∨
      calculate_down_payment_weight (down_payment_ratio d) < 1 ∨
      calculate_employment_weight (d.employment_years.getD 0) < 1 ∨
      calculate_income_weight (income_to_loan_ratio d) < 1) →
      (predict d).2.2 =
        (if calculate_credit_score_weight (d.credit_score.getD 0) < 1 then
          [Finding.creditScore (d.credit_score.getD 0)] else [])
        ++ (if calculate_dti_weight (d.debt_to_income.getD 0) < 1 then
          [Finding.debtToIncome (d.debt_to_income.getD 0)] else [])
        ++ (if calculate_down_payment_weight (down_payment_ratio d) < 1 then
          [Finding.downPayment (down_payment_ratio d)] else [])
        ++ (if calculate_employment_weight (d.employment_years.getD 0) < 1 then
          [Finding.employment (d.employment_years.getD 0)] else [])
        ++ (if calculate_income_weight (income_to_loan_ratio d) < 1 then
          [Finding.incomeToLoan (income_to_loan_ratio d)] else [])) ∧
    ((1 ≤ calculate_credit_score_weight (d.credit_score.getD 0) ∧
      1 ≤ calculate_dti_weight (d.debt_to_income.getD 0) ∧
      1 ≤ calculate_down_payment_weight (down_payment_ratio d) ∧
      1 ≤ calculate_employment_weight (d.employment_years.getD 0) ∧
      1 ≤ calculate_income_weight (income_to_loan_ratio d)) →
      (predict d).1 = true ∧ (predict d).2.2 = [Finding.success]) := by
  constructor
  · intro hex
    rw [predict_of_valid d h]
    have hne : predict_findings d ≠ [] := by
      unfold predict_findings
      rcases hex with hw | hw | hw | hw | hw <;> rw [if_pos hw] <;> simp
    rw [if_neg (fun hc => hne hc.2)]
    rfl
  · rintro ⟨g1, g2, g3, g4, g5⟩
    have hf : predict_findings d = [] := by
      unfold predict_findings
      rw [if_neg (not_lt.mpr g1), if_neg (not_lt.mpr g2),
        if_neg (not_lt.mpr g3), if_neg (not_lt.mpr g4), if_neg (not_lt.mpr g5)]
      rfl
    have hsc : predict_score d ≥ 0.7 := by
      unfold predict_score weight_credit_score weight_debt_to_income
        weight_down_payment weight_employment_years weight_income_to_loan
      linarith
    rw [predict_of_valid d h]
    exact ⟨decide_eq_true hsc, by rw [if_pos ⟨decide_eq_true hsc, hf⟩, hf]; rfl⟩

/-- Concrete record on which all five criterion weights are the full 1. -/
def sampleFullCredit : InputData :=
  { age := some 30, income := some 1200000, employment_years := some 10,
    credit_score := some 850, loan_amount := some 1000,
    debt_to_income := some 0, down_payment := some 500, loan_term := some 1 }

theorem findings_structure_witness :
    ((predict sampleValid).2.2 =
      (if calculate_credit_score_weight (sampleValid.credit_score.getD 0) < 1 then
        [Finding.creditScore (sampleValid.credit_score.getD 0)] else [])
      ++ (if calculate_dti_weight (sampleValid.debt_to_income.getD 0) < 1 then
        [Finding.debtToIncome (sampleValid.debt_to_income.getD 0)] else [])
      ++ (if calculate_down_payment_weight (down_payment_ratio sampleValid) < 1 then
        [Finding.downPayment (down_payment_ratio sampleValid)] else [])
      ++ (if calculate_employment_weight (sampleValid.employment_years.getD 0) < 1 then
        [Finding.employment (sampleValid.employment_years.getD 0)] else [])
      ++ (if calculate_income_weight (income_to_loan_ratio sampleValid) < 1 then
        [Finding.incomeToLoan (income_to_loan_ratio sampleValid)] else [])) ∧
    ((predict sampleFullCredit).1 = true ∧
      (predict sampleFullCredit).2.2 = [Finding.success]) :=
  ⟨(findings_structure sampleValid
      (by norm_num [validate_input, hasAllFields, sampleValid])).1
      (Or.inr (Or.inr (Or.inr (Or.inr (by norm_num [calculate_income_weight,
        income_to_loan_ratio, predict_monthly_payment,
        calculate_monthly_payment, annual_rate, min_income_to_loan_ratio,
        sampleValid]))))),
    (findings_structure sampleFullCredit
      (by norm_num [validate_input, hasAllFields, sampleFullCredit])).2
      (by norm_num [calculate_credit_score_weight, calculate_dti_weight,
        calculate_down_payment_weight, calculate_employment_weight,
        calculate_income_weight, income_to_loan_ratio,
        predict_monthly_payment, down_payment_ratio,
        calculate_monthly_payment, annual_rate, min_credit_score,
        max_debt_to_income, min_down_payment_ratio, min_employment_years,
        min_income_to_loan_ratio, sampleFullCredit])⟩

end LoanModel
